import Mathlib

/-!
Verification of the bank-statement parser agent (agent.py / state.py / prompt.py).

The development shallowly embeds the agent's control loop in Lean:

* Python strings handled by the fenced-code extraction logic are modelled as
  `List Char`; `splitFirst`, `pySplit` and `occurs` reproduce Python's
  `str.split(sep)` (non-overlapping, left-to-right scan) and `sep in s`.
* Tabular data (`pandas.DataFrame`) is modelled by `DataFrame`: an ordered
  list of column names, a parallel list of dtype names, and rows of abstract
  cell values.  A cell `Value` carries its `str()` rendering (`rep`) plus a
  discriminating `tag`, so that two distinct values may share a string
  rendering, as in pandas.  Frame equality is exact structural equality
  (columns, dtypes, shape and values), matching `pandas.DataFrame.equals`.
* All effects are routed through an `Env` of oracles: the chat-completion
  call, `pd.read_csv`, writing the parser file, dynamically importing and
  running the persisted parser, and `os.path.exists`.  The persisted parser
  file namespace is a map `FS` from target name to file contents.
* The LangGraph state machine is embedded as a step function on a `Node`
  program counter together with a fuel-indexed driver `drive` / `driveTrace`.
-/

/-- Whitespace test used by Python's `str.strip()` (space, tab, newline,
carriage return, vertical tab, form feed). -/
def pySpace (c : Char) : Bool :=
  c = ' ' || c = '\t' || c = '\n' || c = '\r' || c = '\x0b' || c = '\x0c'

/-- Drops leading characters satisfying `pySpace`. -/
def dropSpaceLeft : List Char → List Char
  | [] => []
  | c :: r => if pySpace c then dropSpaceLeft r else c :: r

/-- Python's `str.strip()` on a character list: drop whitespace from both ends. -/
def pyStrip (s : List Char) : List Char :=
  (dropSpaceLeft (dropSpaceLeft s.reverse).reverse)

/-- Boolean test that `p` is a prefix of `s`. -/
def charsPrefix : List Char → List Char → Bool
  | [], _ => true
  | _ :: _, [] => false
  | a :: as, b :: bs => a = b && charsPrefix as bs

/-- Locates the first occurrence of `sep` in `s`: returns the text before it
and the text after it, or `none` when `sep` does not occur (left-to-right
scan, exactly as Python's substring search). -/
def splitFirst (sep : List Char) : List Char → Option (List Char × List Char)
  | [] => if charsPrefix sep [] then some ([], []) else none
  | c :: r =>
      if charsPrefix sep (c :: r) then some ([], (c :: r).drop sep.length)
      else (splitFirst sep r).map (fun p => (c :: p.1, p.2))

/-- Python's `sep in s` substring test. -/
def occurs (sep s : List Char) : Bool := (splitFirst sep s).isSome

/-- Text of `s` before the first occurrence of `sep` (all of `s` when `sep`
does not occur).  For a Python split this is `s.split(sep)[0]`. -/
def beforeFirst (sep s : List Char) : List Char :=
  match splitFirst sep s with
  | none => s
  | some p => p.1

/-- Text of `s` after the first occurrence of `sep` (empty when `sep` does
not occur; that case is never used below). -/
def afterFirst (sep s : List Char) : List Char :=
  match splitFirst sep s with
  | none => []
  | some p => p.2

/-- Fuel-indexed worker for `pySplit` (structural recursion, so that the
kernel can evaluate it; each round strictly shortens the text, so the fuel
in `pySplit` is never exhausted for a non-empty separator). -/
def pySplitAux (sep : List Char) : Nat → List Char → List (List Char)
  | 0, s => [s]
  | fuel + 1, s =>
      match splitFirst sep s with
      | none => [s]
      | some p => p.1 :: pySplitAux sep fuel p.2

/-- Python's `s.split(sep)` for a non-empty separator: the list of chunks
between consecutive (non-overlapping, left-to-right) occurrences of `sep`.
Python raises `ValueError` on an empty separator; the separators used below
are non-empty literals. -/
def pySplit (sep s : List Char) : List (List Char) :=
  pySplitAux sep (s.length + 1) s

/-- Opening fence tag for a Python-tagged code block. -/
def TAG : List Char := "```python".toList

/-- Bare code fence. -/
def FENCE : List Char := "```".toList

/-- Code extraction applied to a raw model completion, exactly as inlined in
both `generate_node` and `correct_node` of agent.py: if a Python-tagged fence
occurs, take `resp.split("```python")[1].split("```")[0]`; else if any fence
occurs, take `resp.split("```")[1]`; else the completion itself; finally
`str.strip()` the result. -/
def extract_code (resp : String) : String :=
  let chars := resp.toList
  let code :=
    if occurs TAG chars then
      (pySplit FENCE ((pySplit TAG chars).getD 1 [])).getD 0 []
    else if occurs FENCE chars then
      (pySplit FENCE chars).getD 1 []
    else chars
  String.mk (pyStrip code)

/-- Modelled from the spec: the extraction policy as the spec words it —
"if a fenced block tagged as this language exists, return the content
strictly between the first such opening fence and the next closing fence;
else if any fenced block exists, return the content between the first pair
of fences; else return the completion text unchanged", always stripped.
Where no closing fence follows, the rest of the completion is taken. -/
def specExtract (resp : String) : String :=
  let chars := resp.toList
  let code :=
    if occurs TAG chars then
      let rest := afterFirst TAG chars
      if occurs FENCE rest then beforeFirst FENCE rest else rest
    else if occurs FENCE chars then
      beforeFirst FENCE (afterFirst FENCE chars)
    else chars
  String.mk (pyStrip code)

/-- Extraction policy the code actually implements: in the tagged case the
completion is first cut at the *next tagged fence* (Python's
`split("```python")[1]`), and only then truncated at the first closing fence
within that segment; the untagged and fence-free cases are as the spec says. -/
def extractAmended (resp : String) : String :=
  let chars := resp.toList
  let code :=
    if occurs TAG chars then
      beforeFirst FENCE (beforeFirst TAG (afterFirst TAG chars))
    else if occurs FENCE chars then
      beforeFirst FENCE (afterFirst FENCE chars)
    else chars
  String.mk (pyStrip code)

/-- Abstract pandas cell value: `rep` is its `str()` rendering, `tag`
distinguishes values that render identically (e.g. the int 1 and the string
"1"), so that frame equality is finer than stringified equality. -/
structure Value where
  rep : String
  tag : Nat
deriving DecidableEq

/-- Model of a `pandas.DataFrame`: ordered column names, a parallel list of
dtype names, and the rows of cell values.  Equality of two frames (columns,
dtypes, shape and values) models `pandas.DataFrame.equals`. -/
structure DataFrame where
  columns : List String
  dtypes : List String
  rows : List (List Value)
deriving DecidableEq

/-- Python `repr` of a plain string (quote escaping is not modelled). -/
def pyStrRepr (s : String) : String := "'" ++ s ++ "'"

/-- Python `repr` of a list of strings, as interpolated by an f-string. -/
def pyListRepr (xs : List String) : String :=
  "[" ++ String.intercalate ", " (xs.map pyStrRepr) ++ "]"

/-- Rendering of `df.shape`, a `(rows, cols)` tuple. -/
def pyShapeRepr (df : DataFrame) : String :=
  "(" ++ toString df.rows.length ++ ", " ++ toString df.columns.length ++ ")"

/-- Rendering of `df.dtypes.to_dict()`. -/
def pyDtypesRepr (df : DataFrame) : String :=
  "\x7b" ++
    String.intercalate ", "
      ((df.columns.zip df.dtypes).map
        (fun p => pyStrRepr p.1 ++ ": dtype(" ++ pyStrRepr p.2 ++ ")")) ++
  "\x7d"

/-- Stringified first-row value of a column: `str(df[col].iloc[0])` when the
frame has rows, the literal fallback "N/A" otherwise, exactly as in
`test_node`. -/
def firstValStr (df : DataFrame) (col : String) : String :=
  match df.rows with
  | [] => "N/A"
  | r :: _ =>
    match df.columns.indexOf? col with
    | some i => (r.getD i ⟨ "", 0⟩).rep
    | none => "N/A"

/-- Most recent planner decision, the dict `{action, reasoning}` of agent.py. -/
structure PlanDecision where
  action : String
  reasoning : String
deriving DecidableEq

/-- The `AgentState` TypedDict of agent.py / state.py.  Optional text fields
are plain strings whose Python falsiness is emptiness; `plan` starts as the
empty dict, modelled by `none`. -/
structure AgentState where
  target_bank : String
  pdf_path : String
  csv_path : String
  analysis : String
  current_code : String
  error_message : String
  attempt : Nat
  max_attempts : Nat
  success : Bool
  plan : Option PlanDecision
  reflection : String
deriving DecidableEq

/-- Persisted parser-file namespace written by `_save_parser`: for each
target name, the contents of `custom_parsers/<target>_parser.py`, if the
file exists. -/
def FS : Type := String → Option String

/-- Overwriting write of the parser file for a target. -/
def fsWrite (fs : FS) (target code : String) : FS :=
  fun t => if t = target then some code else fs t

/-- Oracles for every effect of the agent: the chat completion (`none` when
the call raises), `pd.read_csv` (error text when it raises), `_save_parser`
(`none` on success, exception text on failure), dynamically importing and
executing the persisted parser source on the PDF path, and
`os.path.exists`. -/
structure Env where
  llm : String → Option String
  read_csv : String → Except String DataFrame
  save_result : String → String → Option String
  execParse : String → String → Except String DataFrame
  pathExists : String → Bool

/-- The `call_llm` wrapper of agent.py: returns the completion text, or the
empty string when the underlying call raises. -/
def call_llm (env : Env) (prompt : String) : String :=
  match env.llm prompt with
  | some text => text
  | none => ""

/-- Opening line of prompt.py's ANALYZE_PROMPT (the template body is plain
literal text never inspected by the control flow, abridged here). -/
def ANALYZE_PROMPT : String :=
  "You are a Python expert specializing in PDF data extraction. Analyze the bank statement PDF and CSV files to understand the structure."

/-- Condensed stand-in for `df.head(3).to_string()`. -/
def dfHeadString (df : DataFrame) : String :=
  String.intercalate "\n"
    ((df.rows.take 3).map (fun r => String.intercalate " " (r.map Value.rep)))

/-- Condensed stand-in for `df.iloc[10:13].to_string()`. -/
def dfSliceString (df : DataFrame) : String :=
  String.intercalate "\n"
    (((df.rows.drop 10).take 3).map
      (fun r => String.intercalate " " (r.map Value.rep)))

/-- The `csv_info` f-string built in `analyze_node`. -/
def csvInfoString (df : DataFrame) : String :=
  "\nCSV Structure:\n- Columns: " ++ pyListRepr df.columns ++
  "\n- Shape: " ++ pyShapeRepr df ++
  "\n- Data Types: " ++ pyDtypesRepr df ++
  "\n- Sample data:\n" ++ dfHeadString df ++ "\n" ++
  (if df.rows.length > 10 then dfSliceString df else "") ++
  "\n            "

/-- The full prompt sent by `analyze_node`. -/
def analyzePrompt (df : DataFrame) (pdf_path : String) : String :=
  ANALYZE_PROMPT ++ "\n\nCSV Info:\n" ++ csvInfoString df ++
  "\nPDF Path: " ++ pdf_path

/-- The prompt of `generate_node`: GENERATE_PARSER_PROMPT with the analysis,
target bank and rendered column list substituted (template body abridged;
all placeholder braces in prompt.py are properly escaped, so `str.format`
never raises). -/
def generatePromptFormat (analysis target_bank columnsRepr : String) : String :=
  "Create a robust Python parser function that extracts bank statement data from PDF and returns a pandas DataFrame." ++
  "\n[template body abridged] expected_columns = " ++ columnsRepr ++
  "\n\nAnalysis Context:\n" ++ analysis ++
  "\n\nTarget Bank: " ++ target_bank ++
  "\nExpected Columns: " ++ columnsRepr ++
  "\n\nGenerate complete, production-ready parser code that follows the exact template structure."

/-- The prompt of `correct_node`: SELF_CORRECT_PROMPT with the error and the
current code substituted (template body abridged). -/
def selfCorrectPromptFormat (error code : String) : String :=
  "The parser failed. Analyze the error and implement a fix using ONLY allowed libraries." ++
  "\n[template body abridged]\nERROR ANALYSIS:\nError: " ++ error ++
  "\n\nCURRENT CODE:\n" ++ code ++
  "\n[template body abridged]"

/-- The prompt of `reflect_node`: REFLECTION_PROMPT with the target bank,
completed attempts, final error and final code substituted (body abridged). -/
def reflectionPromptFormat (target_bank : String) (attempts_made : Nat)
    (final_error final_code : String) : String :=
  "Reflect on the parser generation process and identify what went wrong." ++
  "\n\nContext:\n- Bank: " ++ target_bank ++
  "\n- Attempts Made: " ++ toString attempts_made ++
  "\n- Final Error: " ++ final_error ++
  "\n- Code Generated: " ++ final_code ++
  "\n[template body abridged]"

/-- The `plan_node` of agent.py: the ordered decision table over attempt
count, analysis presence, error presence and code presence, writing only the
`plan` field.  Python truthiness of the string fields is non-emptiness. -/
def plan_node (s : AgentState) : AgentState :=
  if s.attempt = 1 ∧ s.analysis = "" then
    { s with plan := some ⟨ "ANALYZE", ""⟩ }
  else if s.error_message ≠ "" ∧ s.current_code ≠ "" then
    { s with plan := some ⟨ "CORRECT", ""⟩ }
  else if s.analysis ≠ "" ∧ s.current_code = "" then
    { s with plan := some ⟨ "GENERATE", ""⟩ }
  else
    { s with plan := some ⟨ "GENERATE", ""⟩ }

/-- The `analyze_node` of agent.py: loads the reference table, sends the
structural summary to the model and stores the raw completion as the
analysis; a load failure is recorded as an error message instead. -/
def analyze_node (env : Env) (s : AgentState) : AgentState :=
  match env.read_csv s.csv_path with
  | Except.error e => { s with error_message := "Analysis failed: " ++ e }
  | Except.ok df =>
      { s with analysis := call_llm env (analyzePrompt df s.pdf_path) }

/-- The `generate_node` of agent.py: loads the reference table for its
columns, prompts the model, extracts the code, assigns it to
`current_code`, then persists it.  A `read_csv` failure records an error
before the assignment; a persistence failure records an error after it
(mirroring the single try/except around the whole body and the in-place
dict mutation). -/
def generate_node (env : Env) (fs : FS) (s : AgentState) : FS × AgentState :=
  match env.read_csv s.csv_path with
  | Except.error e =>
      (fs, { s with error_message := "Code generation failed: " ++ e })
  | Except.ok df =>
      let prompt := generatePromptFormat s.analysis s.target_bank (pyListRepr df.columns)
      let code := extract_code (call_llm env prompt)
      let s1 := { s with current_code := code }
      match env.save_result s.target_bank code with
      | some e => (fs, { s1 with error_message := "Code generation failed: " ++ e })
      | none => (fsWrite fs s.target_bank code, s1)

/-- The `correct_node` of agent.py: prompts the model with the error and the
current code, extracts the corrected code, assigns it, then persists it; a
persistence failure records an error after the assignment. -/
def correct_node (env : Env) (fs : FS) (s : AgentState) : FS × AgentState :=
  let prompt := selfCorrectPromptFormat s.error_message s.current_code
  let code := extract_code (call_llm env prompt)
  let s1 := { s with current_code := code }
  match env.save_result s.target_bank code with
  | some e => (fs, { s1 with error_message := "Correction failed: " ++ e })
  | none => (fsWrite fs s.target_bank code, s1)

/-- The ordered diagnostic list built by `test_node` on a mismatch. -/
def testDetails (result_df expected_df : DataFrame) : List String :=
  let base := ["Got columns: " ++ pyListRepr result_df.columns,
               "Expected columns: " ++ pyListRepr expected_df.columns,
               "Got shape: " ++ pyShapeRepr result_df,
               "Expected shape: " ++ pyShapeRepr expected_df]
  if result_df.columns = expected_df.columns then
    base ++
    ["Got dtypes: " ++ pyDtypesRepr result_df,
     "Expected dtypes: " ++ pyDtypesRepr expected_df] ++
    result_df.columns.filterMap (fun col =>
      if col ∈ expected_df.columns then
        if firstValStr result_df col ≠ firstValStr expected_df col then
          some ("Mismatch in column '" ++ col ++ "': '" ++
                firstValStr result_df col ++ "' vs '" ++
                firstValStr expected_df col ++ "'")
        else none
      else none)
  else base

/-- The `test_node` of agent.py: freshly load the persisted parser for the
target (a missing file raises ImportError), run it on the PDF, load the
reference table, and compare exactly; record success/mismatch/exception in
the state; finally increment the attempt counter unconditionally. -/
def test_node (env : Env) (fs : FS) (s : AgentState) : AgentState :=
  let s1 :=
    match fs s.target_bank with
    | none =>
        { s with success := false,
                 error_message := "Test execution failed: No module named '" ++
                   s.target_bank ++ "_parser'" }
    | some code =>
      match env.execParse code s.pdf_path with
      | Except.error e =>
          { s with success := false,
                   error_message := "Test execution failed: " ++ e }
      | Except.ok result_df =>
        match env.read_csv s.csv_path with
        | Except.error e =>
            { s with success := false,
                     error_message := "Test execution failed: " ++ e }
        | Except.ok expected_df =>
          if result_df = expected_df then
            { s with success := true, error_message := "" }
          else
            { s with success := false,
                     error_message :=
                       String.intercalate "\n" (testDetails result_df expected_df) }
  { s1 with attempt := s1.attempt + 1 }

/-- The `reflect_node` of agent.py: one more model call whose raw completion
is stored as the reflection text. -/
def reflect_node (env : Env) (s : AgentState) : AgentState :=
  { s with reflection :=
      call_llm env (reflectionPromptFormat s.target_bank (s.attempt - 1)
        s.error_message s.current_code) }

/-- Nodes of the LangGraph state machine, plus the terminal END. -/
inductive Node where
  | plan
  | analyze
  | generate
  | correct
  | test
  | reflect
  | done
deriving DecidableEq

/-- The `_route_after_plan` conditional edge: dispatch on the action string
of the most recent plan, defaulting to generation.  The `none` branch is
unreachable from the graph (the plan node always writes the field; Python
would raise a KeyError there). -/
def route_after_plan (s : AgentState) : Node :=
  match s.plan with
  | some p =>
      if p.action = "ANALYZE" then Node.analyze
      else if p.action = "GENERATE" then Node.generate
      else if p.action = "CORRECT" then Node.correct
      else Node.generate
  | none => Node.generate

/-- The `_should_continue` conditional edge after a test: terminal success
when the success flag is set, else reflect when the attempt counter exceeds
the budget, else back to planning. -/
def shouldContinue (s : AgentState) : Node :=
  if s.success then Node.done
  else if s.attempt > s.max_attempts then Node.reflect
  else Node.plan

/-- One transition of the compiled graph of `_create_graph`: execute the
node at the program counter and move along its (conditional) edge. -/
def stepGraph (env : Env) (n : Node) (fs : FS) (s : AgentState) :
    Node × FS × AgentState :=
  match n with
  | Node.plan =>
      let s1 := plan_node s
      (route_after_plan s1, fs, s1)
  | Node.analyze => (Node.generate, fs, analyze_node env s)
  | Node.generate =>
      let r := generate_node env fs s
      (Node.test, r.1, r.2)
  | Node.correct =>
      let r := correct_node env fs s
      (Node.test, r.1, r.2)
  | Node.test =>
      let s1 := test_node env fs s
      (shouldContinue s1, fs, s1)
  | Node.reflect => (Node.done, fs, reflect_node env s)
  | Node.done => (Node.done, fs, s)

/-- Fuel-indexed driver for the compiled graph (`graph.invoke`).  The real
graph always terminates within 11 transitions, well below LangGraph's
recursion limit, so every claim below quantifies over the fuel. -/
def drive (env : Env) : Nat → Node → FS → AgentState → Node × FS × AgentState
  | 0, n, fs, s => (n, fs, s)
  | fuel + 1, n, fs, s =>
      if n = Node.done then (Node.done, fs, s)
      else
        let r := stepGraph env n fs s
        drive env fuel r.1 r.2.1 r.2.2

/-- List of nodes executed by the driver, in order. -/
def driveTrace (env : Env) : Nat → Node → FS → AgentState → List Node
  | 0, _, _, _ => []
  | fuel + 1, n, fs, s =>
      if n = Node.done then []
      else
        let r := stepGraph env n fs s
        n :: driveTrace env fuel r.1 r.2.1 r.2.2

/-- Number of test-node executions strictly before the first reflect-node
execution in a trace. -/
def testsBeforeReflect : List Node → Nat
  | [] => 0
  | n :: tr =>
      if n = Node.reflect then 0
      else (if n = Node.test then 1 else 0) + testsBeforeReflect tr

/-- Input document path for a target, `data/T/T sample.pdf`. -/
def pdfPathOf (target_bank : String) : String :=
  "data/" ++ target_bank ++ "/" ++ target_bank ++ " sample.pdf"

/-- Reference table path for a target, `data/T/result.csv`. -/
def csvPathOf (target_bank : String) : String :=
  "data/" ++ target_bank ++ "/result.csv"

/-- The initial run state built by `run`: attempt 1, budget 3, all text
fields empty, empty plan dict, success false. -/
def initialState (target_bank pdf_path csv_path : String) : AgentState :=
  { target_bank := target_bank
    pdf_path := pdf_path
    csv_path := csv_path
    analysis := ""
    current_code := ""
    error_message := ""
    attempt := 1
    max_attempts := 3
    success := false
    plan := none
    reflection := "" }

/-- The `run` entry point of agent.py: resolve the two input paths, fail
immediately when either file is missing, otherwise build the initial state,
drive the state machine from the plan node and return the final success
flag. -/
def run (env : Env) (fuel : Nat) (fs : FS) (target_bank : String) : Bool :=
  let pdf_path := pdfPathOf target_bank
  let csv_path := csvPathOf target_bank
  if env.pathExists pdf_path = false then false
  else if env.pathExists csv_path = false then false
  else
    (drive env fuel Node.plan fs
      (initialState target_bank pdf_path csv_path)).2.2.success

/-- Companion to `run` exposing which state-machine nodes execute: empty
when either input file is missing (the state machine is never entered),
otherwise the trace of the drive. -/
def runTrace (env : Env) (fuel : Nat) (fs : FS) (target_bank : String) :
    List Node :=
  let pdf_path := pdfPathOf target_bank
  let csv_path := csvPathOf target_bank
  if env.pathExists pdf_path = false then []
  else if env.pathExists csv_path = false then []
  else
    driveTrace env fuel Node.plan fs
      (initialState target_bank pdf_path csv_path)

/-- Reference table used by the concrete witnesses below. -/
def dfRef : DataFrame :=
  ⟨ ["Date", "Amount"], ["object", "int64"], [[⟨ "01-01", 0⟩, ⟨ "5", 1⟩]]⟩

/-- Parsed table with the same columns and dtypes as `dfRef` but a different
first-row Date value. -/
def dfMismatchVals : DataFrame :=
  ⟨ ["Date", "Amount"], ["object", "int64"], [[⟨ "01-02", 0⟩, ⟨ "5", 1⟩]]⟩

/-- Parsed table whose column list differs from `dfRef`. -/
def dfMismatchCols : DataFrame :=
  ⟨ ["Datum"], ["object"], [[⟨ "01-01", 0⟩]]⟩

/-- Parser-file namespace holding one persisted parser for target icici. -/
def fsEx : FS := fun t => if t = "icici" then some "CODE" else none

/-- Concrete run state for the witnesses. -/
def sEx : AgentState :=
  { initialState "icici" "p.pdf" "r.csv" with current_code := "CODE" }

/-- Healthy environment: the model answers, files exist, saving succeeds,
and the persisted parser reproduces the reference table exactly. -/
def envMatch : Env :=
  ⟨ fun _ => some "ok", fun _ => Except.ok dfRef, fun _ _ => none,
    fun _ _ => Except.ok dfRef, fun _ => true⟩

/-- Environment whose parser output has matching columns but a differing
first-row value. -/
def envValMismatch : Env :=
  { envMatch with execParse := fun _ _ => Except.ok dfMismatchVals }

/-- Environment whose parser output has a differing column list. -/
def envColMismatch : Env :=
  { envMatch with execParse := fun _ _ => Except.ok dfMismatchCols }

/-- Environment whose persisted parser always raises when executed. -/
def envCrash : Env :=
  { envMatch with execParse := fun _ _ => Except.error "boom" }

/-- Environment whose persistence sink always raises. -/
def envSaveFail : Env :=
  { envMatch with save_result := fun _ _ => some "disk full" }

/-- Environment whose chat-completion call always raises. -/
def envLLMDown : Env :=
  { envMatch with llm := fun _ => none }

/-- Environment in which no input file exists. -/
def envNoFiles : Env :=
  { envMatch with pathExists := fun _ => false }

/-- Frame of the run state that identifies the run: target identifier, both
input paths, and the attempt budget. -/
def frameFixed (s s1 : AgentState) : Prop :=
  s1.target_bank = s.target_bank ∧ s1.pdf_path = s.pdf_path ∧
  s1.csv_path = s.csv_path ∧ s1.max_attempts = s.max_attempts

/-- Empty persisted-parser namespace. -/
def fsEmpty : FS := fun _ => none

/-- Nodes that precede a test execution in every cycle of the graph. -/
def preTest (n : Node) : Prop :=
  n = Node.plan ∨ n = Node.analyze ∨ n = Node.generate ∨ n = Node.correct

theorem charsPrefix_iff {p s : List Char} :
    charsPrefix p s = true ↔ ∃ t, s = p ++ t := by
  induction p generalizing s with
  | nil => simp [charsPrefix]
  | cons a as ih =>
    cases s with
    | nil =>
      simp [charsPrefix]
    | cons b bs =>
      simp only [charsPrefix, Bool.and_eq_true, decide_eq_true_eq, ih,
        List.cons_append, List.cons.injEq]
      constructor
      · rintro ⟨rfl, t, rfl⟩; exact ⟨t, rfl, rfl⟩
      · rintro ⟨t, rfl, rfl⟩; exact ⟨rfl, t, rfl⟩

theorem splitFirst_eq_append {sep : List Char} : ∀ {s a b : List Char},
    splitFirst sep s = some (a, b) → s = a ++ sep ++ b := by
  intro s
  induction s with
  | nil =>
    intro a b h
    unfold splitFirst at h
    by_cases hp : charsPrefix sep [] = true
    · obtain ⟨t, ht⟩ := charsPrefix_iff.1 hp
      have hsep : sep = [] := by
        cases sep with
        | nil => rfl
        | cons x xs => simp at ht
      rw [hp] at h
      simp at h
      obtain ⟨ha, hb⟩ := h
      subst ha; subst hb; subst hsep
      rfl
    · simp [hp] at h
  | cons c r ih =>
    intro a b h
    unfold splitFirst at h
    by_cases hp : charsPrefix sep (c :: r) = true
    · obtain ⟨t, ht⟩ := charsPrefix_iff.1 hp
      rw [hp] at h
      simp at h
      have hdrop : (c :: r).drop sep.length = t := by
        rw [ht]; exact List.drop_left sep t
      obtain ⟨ha, hb⟩ := h
      subst ha; subst hb
      rw [hdrop, ht]
      rfl
    · rw [if_neg hp] at h
      rcases Option.map_eq_some'.1 h with ⟨p, hp1, hp2⟩
      have hr := ih hp1
      injection hp2 with ha hb
      subst ha; subst hb
      simp [hr]

/-- Length of the remainder shrinks strictly when `sep` is non-empty. -/
theorem splitFirst_snd_length {sep s a b : List Char} (hsep : sep ≠ [])
    (h : splitFirst sep s = some (a, b)) : b.length < s.length := by
  have hs := splitFirst_eq_append h
  have hlen : s.length = a.length + sep.length + b.length := by
    rw [hs]; simp [List.length_append]; omega
  have hpos : 0 < sep.length := List.length_pos.2 hsep
  omega

theorem pySplitAux_getD_zero (sep : List Char) :
    ∀ fuel s, 1 ≤ fuel → (pySplitAux sep fuel s).getD 0 [] = beforeFirst sep s := by
  intro fuel s hf
  cases fuel with
  | zero => omega
  | succ f =>
    unfold pySplitAux beforeFirst
    cases h : splitFirst sep s <;> simp

theorem pySplit_getD_zero {sep s : List Char} :
    (pySplit sep s).getD 0 [] = beforeFirst sep s :=
  pySplitAux_getD_zero sep (s.length + 1) s (by omega)

theorem pySplit_getD_one {sep s : List Char} (hsep : sep ≠ [])
    (hocc : occurs sep s = true) :
    (pySplit sep s).getD 1 [] = beforeFirst sep (afterFirst sep s) := by
  unfold pySplit pySplitAux afterFirst
  cases h : splitFirst sep s with
  | none =>
    unfold occurs at hocc
    rw [h] at hocc
    simp at hocc
  | some p =>
    simp only [List.getD_cons_succ]
    have hlt : p.2.length < s.length :=
      splitFirst_snd_length hsep (by rw [h])
    exact pySplitAux_getD_zero sep s.length p.2 (by omega)

/-- C7 (amended): for every raw completion, extraction returns, stripped of
leading and trailing whitespace: when a tagged fence occurs, the first
tag-delimited segment (the text between the first tagged fence and the next
tagged fence, or the end) truncated before the first closing fence within
that segment when one exists — which is the text strictly between the first
tagged opening fence and the next closing fence except when that closing
fence overlaps a later tagged fence, or when no closing fence follows;
otherwise, when any fence occurs, the text between the first pair of
fences (to the end when no second fence follows); otherwise the completion
unchanged. -/
theorem extract_code_eq_extractAmended (resp : String) :
    extract_code resp = extractAmended resp := by
  unfold extract_code extractAmended
  by_cases h1 : occurs TAG resp.toList = true
  · simp only [h1, if_pos]
    rw [pySplit_getD_one (by decide) h1, pySplit_getD_zero]
  · by_cases h2 : occurs FENCE resp.toList = true
    · simp only [h1, h2, if_true, if_false, Bool.false_eq_true]
      rw [pySplit_getD_one (by decide) h2]
    · simp only [if_neg h1, if_neg h2]

@[simp] theorem plan_node_attempt (s : AgentState) :
    (plan_node s).attempt = s.attempt := by
  unfold plan_node; split_ifs <;> rfl

@[simp] theorem plan_node_success (s : AgentState) :
    (plan_node s).success = s.success := by
  unfold plan_node; split_ifs <;> rfl

@[simp] theorem plan_node_max (s : AgentState) :
    (plan_node s).max_attempts = s.max_attempts := by
  unfold plan_node; split_ifs <;> rfl

@[simp] theorem analyze_node_attempt (env : Env) (s : AgentState) :
    (analyze_node env s).attempt = s.attempt := by
  unfold analyze_node; cases env.read_csv s.csv_path <;> rfl

@[simp] theorem analyze_node_success (env : Env) (s : AgentState) :
    (analyze_node env s).success = s.success := by
  unfold analyze_node; cases env.read_csv s.csv_path <;> rfl

@[simp] theorem analyze_node_max (env : Env) (s : AgentState) :
    (analyze_node env s).max_attempts = s.max_attempts := by
  unfold analyze_node; cases env.read_csv s.csv_path <;> rfl

@[simp] theorem generate_node_attempt (env : Env) (fs : FS) (s : AgentState) :
    (generate_node env fs s).2.attempt = s.attempt := by
  unfold generate_node
  cases env.read_csv s.csv_path with
  | error e => rfl
  | ok df =>
    dsimp only
    split <;> rfl

@[simp] theorem generate_node_success (env : Env) (fs : FS) (s : AgentState) :
    (generate_node env fs s).2.success = s.success := by
  unfold generate_node
  cases env.read_csv s.csv_path with
  | error e => rfl
  | ok df =>
    dsimp only
    split <;> rfl

@[simp] theorem generate_node_max (env : Env) (fs : FS) (s : AgentState) :
    (generate_node env fs s).2.max_attempts = s.max_attempts := by
  unfold generate_node
  cases env.read_csv s.csv_path with
  | error e => rfl
  | ok df =>
    dsimp only
    split <;> rfl

@[simp] theorem correct_node_attempt (env : Env) (fs : FS) (s : AgentState) :
    (correct_node env fs s).2.attempt = s.attempt := by
  unfold correct_node
  dsimp only
  split <;> rfl

@[simp] theorem correct_node_success (env : Env) (fs : FS) (s : AgentState) :
    (correct_node env fs s).2.success = s.success := by
  unfold correct_node
  dsimp only
  split <;> rfl

@[simp] theorem correct_node_max (env : Env) (fs : FS) (s : AgentState) :
    (correct_node env fs s).2.max_attempts = s.max_attempts := by
  unfold correct_node
  dsimp only
  split <;> rfl

@[simp] theorem test_node_attempt (env : Env) (fs : FS) (s : AgentState) :
    (test_node env fs s).attempt = s.attempt + 1 := by
  unfold test_node
  dsimp only
  split
  · rfl
  · split
    · rfl
    · split
      · rfl
      · split <;> rfl

@[simp] theorem test_node_max (env : Env) (fs : FS) (s : AgentState) :
    (test_node env fs s).max_attempts = s.max_attempts := by
  unfold test_node
  dsimp only
  split
  · rfl
  · split
    · rfl
    · split
      · rfl
      · split <;> rfl

@[simp] theorem reflect_node_attempt (env : Env) (s : AgentState) :
    (reflect_node env s).attempt = s.attempt := rfl

@[simp] theorem reflect_node_success (env : Env) (s : AgentState) :
    (reflect_node env s).success = s.success := rfl

@[simp] theorem reflect_node_max (env : Env) (s : AgentState) :
    (reflect_node env s).max_attempts = s.max_attempts := rfl

/-- C1: for every run state, the plan step selects its action by the first
matching rule of the ordered decision table — ANALYZE if the attempt counter
equals 1 and the analysis text is absent; otherwise CORRECT if the error
message is non-empty and the current code is non-empty; otherwise GENERATE
if analysis is present and code is absent; otherwise GENERATE as the default
— writing only the plan field and nothing else of the state. -/
theorem plan_node_decision_table (s : AgentState) :
    ((s.attempt = 1 ∧ s.analysis = "") →
       (plan_node s).plan = some ⟨ "ANALYZE", ""⟩) ∧
    (¬(s.attempt = 1 ∧ s.analysis = "") →
       (s.error_message ≠ "" ∧ s.current_code ≠ "") →
       (plan_node s).plan = some ⟨ "CORRECT", ""⟩) ∧
    (¬(s.attempt = 1 ∧ s.analysis = "") →
       ¬(s.error_message ≠ "" ∧ s.current_code ≠ "") →
       (s.analysis ≠ "" ∧ s.current_code = "") →
       (plan_node s).plan = some ⟨ "GENERATE", ""⟩) ∧
    (¬(s.attempt = 1 ∧ s.analysis = "") →
       ¬(s.error_message ≠ "" ∧ s.current_code ≠ "") →
       ¬(s.analysis ≠ "" ∧ s.current_code = "") →
       (plan_node s).plan = some ⟨ "GENERATE", ""⟩) ∧
    ((plan_node s).target_bank = s.target_bank ∧
     (plan_node s).pdf_path = s.pdf_path ∧
     (plan_node s).csv_path = s.csv_path ∧
     (plan_node s).analysis = s.analysis ∧
     (plan_node s).current_code = s.current_code ∧
     (plan_node s).error_message = s.error_message ∧
     (plan_node s).attempt = s.attempt ∧
     (plan_node s).max_attempts = s.max_attempts ∧
     (plan_node s).success = s.success ∧
     (plan_node s).reflection = s.reflection) := by
  unfold plan_node
  by_cases h1 : s.attempt = 1 ∧ s.analysis = ""
  · simp [h1]
  · by_cases h2 : s.error_message ≠ "" ∧ s.current_code ≠ ""
    · simp [h1, h2]
    · by_cases h3 : s.analysis ≠ "" ∧ s.current_code = ""
      · simp [h1, h2, h3]
      · simp [h1, h2, h3]

/-- Witness for C1: on the fresh initial state rule 1 fires (ANALYZE), and
on a later attempt with a live error and existing code rule 2 fires
(CORRECT) even though analysis is present. -/
theorem plan_node_decision_table_witness :
    (plan_node (initialState "icici" "p.pdf" "r.csv")).plan =
        some ⟨ "ANALYZE", ""⟩ ∧
    (plan_node { initialState "icici" "p.pdf" "r.csv" with
        attempt := 2, analysis := "A", error_message := "E",
        current_code := "C" }).plan = some ⟨ "CORRECT", ""⟩ := by
  constructor
  · exact (plan_node_decision_table (initialState "icici" "p.pdf" "r.csv")).1
      ⟨ rfl, rfl⟩
  · exact (plan_node_decision_table { initialState "icici" "p.pdf" "r.csv" with
        attempt := 2, analysis := "A", error_message := "E",
        current_code := "C" }).2.1 (by simp) ⟨ by simp, by simp⟩

/-- One graph transition never decreases the attempt counter. -/
theorem stepGraph_attempt_le (env : Env) (n : Node) (fs : FS) (s : AgentState) :
    s.attempt ≤ (stepGraph env n fs s).2.2.attempt := by
  cases n <;> simp [stepGraph]

/-- The driver never decreases the attempt counter. -/
theorem drive_attempt_le (env : Env) :
    ∀ fuel n fs s, s.attempt ≤ (drive env fuel n fs s).2.2.attempt := by
  intro fuel
  induction fuel with
  | zero => intro n fs s; exact Nat.le_refl _
  | succ f ih =>
    intro n fs s
    unfold drive
    by_cases hd : n = Node.done
    · simp [hd]
    · rw [if_neg hd]
      exact Nat.le_trans (stepGraph_attempt_le env n fs s) (ih _ _ _)

/-- C3: the attempt counter is monotonically non-decreasing along every run;
the test step increments it by exactly 1 unconditionally (the increment is
the last action of the step, after every success/mismatch/exception branch),
and no other step modifies it. -/
theorem attempt_counter_spec :
    (∀ (env : Env) (fs : FS) (s : AgentState),
        (test_node env fs s).attempt = s.attempt + 1) ∧
    (∀ s : AgentState, (plan_node s).attempt = s.attempt) ∧
    (∀ (env : Env) (s : AgentState), (analyze_node env s).attempt = s.attempt) ∧
    (∀ (env : Env) (fs : FS) (s : AgentState),
        (generate_node env fs s).2.attempt = s.attempt) ∧
    (∀ (env : Env) (fs : FS) (s : AgentState),
        (correct_node env fs s).2.attempt = s.attempt) ∧
    (∀ (env : Env) (s : AgentState), (reflect_node env s).attempt = s.attempt) ∧
    (∀ (env : Env) (fuel : Nat) (n : Node) (fs : FS) (s : AgentState),
        s.attempt ≤ (drive env fuel n fs s).2.2.attempt) :=
  ⟨test_node_attempt, plan_node_attempt, analyze_node_attempt,
   generate_node_attempt, correct_node_attempt, reflect_node_attempt,
   fun env fuel n fs s => drive_attempt_le env fuel n fs s⟩

/-- C9: every step function of the state machine leaves the target
identifier, the input document path, the reference table path, and the
attempt budget unchanged. -/
theorem step_functions_frame (env : Env) (fs : FS) (s : AgentState) :
    frameFixed s (plan_node s) ∧
    frameFixed s (analyze_node env s) ∧
    frameFixed s (generate_node env fs s).2 ∧
    frameFixed s (correct_node env fs s).2 ∧
    frameFixed s (test_node env fs s) ∧
    frameFixed s (reflect_node env s) := by
  refine ⟨?_, ?_, ?_, ?_, ?_, ?_⟩
  · unfold frameFixed plan_node
    split_ifs <;> exact ⟨rfl, rfl, rfl, rfl⟩
  · unfold frameFixed analyze_node
    cases env.read_csv s.csv_path <;> exact ⟨rfl, rfl, rfl, rfl⟩
  · unfold frameFixed generate_node
    cases env.read_csv s.csv_path with
    | error e => exact ⟨rfl, rfl, rfl, rfl⟩
    | ok df =>
      dsimp only
      split <;> exact ⟨rfl, rfl, rfl, rfl⟩
  · unfold frameFixed correct_node
    dsimp only
    split <;> exact ⟨rfl, rfl, rfl, rfl⟩
  · unfold frameFixed test_node
    dsimp only
    refine ⟨?_, ?_, ?_, ?_⟩ <;>
      · split
        · rfl
        · split
          · rfl
          · split
            · rfl
            · split <;> rfl
  · exact ⟨rfl, rfl, rfl, rfl⟩

/-- C6: whenever the comparison finds an exact structural and value match
between the parsed table and the reference table, the test step sets the
success flag to true and sets the error message to the empty string. -/
theorem test_node_exact_match (env : Env) (fs : FS) (s : AgentState)
    (code : String) (result_df expected_df : DataFrame)
    (hfs : fs s.target_bank = some code)
    (hexec : env.execParse code s.pdf_path = Except.ok result_df)
    (hcsv : env.read_csv s.csv_path = Except.ok expected_df)
    (heq : result_df = expected_df) :
    (test_node env fs s).success = true ∧
    (test_node env fs s).error_message = "" := by
  unfold test_node
  simp only [hfs, hexec, hcsv]
  rw [if_pos heq]
  exact ⟨rfl, rfl⟩

/-- Witness for C6: the healthy environment's parser reproduces the
reference table, so the test step succeeds and clears the error. -/
theorem test_node_exact_match_witness :
    (test_node envMatch fsEx sEx).success = true ∧
    (test_node envMatch fsEx sEx).error_message = "" :=
  test_node_exact_match envMatch fsEx sEx "CODE" dfRef dfRef
    (by decide) rfl rfl rfl

/-- Membership-guarded filterMap over a list contained in `m` collapses to
a filter-and-map (the shape of the per-column loop of `test_node` when the
column lists agree). -/
theorem filterMap_guard_eq (m : List String) (f : String → String)
    (p : String → Prop) [DecidablePred p] :
    ∀ l : List String, (∀ c, c ∈ l → c ∈ m) →
      l.filterMap (fun col =>
        if col ∈ m then (if p col then some (f col) else none) else none) =
      (l.filter (fun col => decide (p col))).map f := by
  intro l
  induction l with
  | nil => intro _; rfl
  | cons a t ih =>
    intro hl
    have ha : a ∈ m := hl a (by simp)
    have ht : ∀ c, c ∈ t → c ∈ m := fun c hc => hl c (by simp [hc])
    simp only [List.filterMap_cons, List.filter_cons]
    rw [if_pos ha]
    by_cases hp : p a
    · simp [hp, ih ht]
    · simp [hp, ih ht]

/-- C5: on a mismatch found without an exception, the test step sets success
to false and records the ordered diagnostic: always the two column lists and
the two shapes; and — exactly when the column lists are equal — additionally
the two dtype dictionaries followed by one "Mismatch in column" line for
every column whose stringified first-row values differ. -/
theorem test_node_mismatch_diagnostic (env : Env) (fs : FS) (s : AgentState)
    (code : String) (result_df expected_df : DataFrame)
    (hfs : fs s.target_bank = some code)
    (hexec : env.execParse code s.pdf_path = Except.ok result_df)
    (hcsv : env.read_csv s.csv_path = Except.ok expected_df)
    (hne : result_df ≠ expected_df) :
    (test_node env fs s).success = false ∧
    (test_node env fs s).error_message =
      String.intercalate "\n" (testDetails result_df expected_df) ∧
    (result_df.columns ≠ expected_df.columns →
      testDetails result_df expected_df =
        ["Got columns: " ++ pyListRepr result_df.columns,
         "Expected columns: " ++ pyListRepr expected_df.columns,
         "Got shape: " ++ pyShapeRepr result_df,
         "Expected shape: " ++ pyShapeRepr expected_df]) ∧
    (result_df.columns = expected_df.columns →
      testDetails result_df expected_df =
        ["Got columns: " ++ pyListRepr result_df.columns,
         "Expected columns: " ++ pyListRepr expected_df.columns,
         "Got shape: " ++ pyShapeRepr result_df,
         "Expected shape: " ++ pyShapeRepr expected_df,
         "Got dtypes: " ++ pyDtypesRepr result_df,
         "Expected dtypes: " ++ pyDtypesRepr expected_df] ++
        (result_df.columns.filter
            (fun col => decide (firstValStr result_df col ≠ firstValStr expected_df col))).map
          (fun col => "Mismatch in column '" ++ col ++ "': '" ++
            firstValStr result_df col ++ "' vs '" ++
            firstValStr expected_df col ++ "'")) := by
  refine ⟨?_, ?_, ?_, ?_⟩
  · unfold test_node
    simp only [hfs, hexec, hcsv]
    rw [if_neg hne]
  · unfold test_node
    simp only [hfs, hexec, hcsv]
    rw [if_neg hne]
  · intro hcols
    unfold testDetails
    rw [if_neg hcols]
  · intro hcols
    unfold testDetails
    rw [if_pos hcols]
    have hmem : ∀ c, c ∈ result_df.columns → c ∈ expected_df.columns := by
      intro c hc; rw [← hcols]; exact hc
    rw [filterMap_guard_eq expected_df.columns _ _ result_df.columns hmem]
    rfl

/-- Witness for C5, both sides: a value-level mismatch with equal columns
yields the full diagnostic with dtype lines and one per-column mismatch
line; a column-level mismatch yields only the column and shape lines. -/
theorem test_node_mismatch_diagnostic_witness :
    ((test_node envValMismatch fsEx sEx).success = false ∧
     (test_node envValMismatch fsEx sEx).error_message =
       String.intercalate "\n" (testDetails dfMismatchVals dfRef) ∧
     testDetails dfMismatchVals dfRef =
       ["Got columns: " ++ pyListRepr dfMismatchVals.columns,
        "Expected columns: " ++ pyListRepr dfRef.columns,
        "Got shape: " ++ pyShapeRepr dfMismatchVals,
        "Expected shape: " ++ pyShapeRepr dfRef,
        "Got dtypes: " ++ pyDtypesRepr dfMismatchVals,
        "Expected dtypes: " ++ pyDtypesRepr dfRef] ++
       (dfMismatchVals.columns.filter
           (fun col => decide (firstValStr dfMismatchVals col ≠ firstValStr dfRef col))).map
         (fun col => "Mismatch in column '" ++ col ++ "': '" ++
           firstValStr dfMismatchVals col ++ "' vs '" ++
           firstValStr dfRef col ++ "'")) ∧
    (testDetails dfMismatchCols dfRef =
       ["Got columns: " ++ pyListRepr dfMismatchCols.columns,
        "Expected columns: " ++ pyListRepr dfRef.columns,
        "Got shape: " ++ pyShapeRepr dfMismatchCols,
        "Expected shape: " ++ pyShapeRepr dfRef]) := by
  constructor
  · have h := test_node_mismatch_diagnostic envValMismatch fsEx sEx "CODE"
      dfMismatchVals dfRef (by decide) rfl rfl (by decide)
    exact ⟨h.1, h.2.1, h.2.2.2 (by decide)⟩
  · have h := test_node_mismatch_diagnostic envColMismatch fsEx sEx "CODE"
      dfMismatchCols dfRef (by decide) rfl rfl (by decide)
    exact h.2.2.1 (by decide)

/-- C4 (amended): in the generate step, a failure while loading the
reference table records a descriptive error message and leaves the
current-code field and the persisted file unchanged; a failure while
persisting — the only other raising operation, since prompt composition,
the model call and code extraction cannot raise — records a descriptive
error message, but the current-code field already holds the freshly
extracted code (the in-place assignment precedes persistence); likewise for
the correct step, whose only raising operation is persistence. -/
theorem generation_failure_handling (env : Env) (fs : FS) (s : AgentState)
    (e : String) :
    (env.read_csv s.csv_path = Except.error e →
       (generate_node env fs s).2.error_message = "Code generation failed: " ++ e ∧
       (generate_node env fs s).2.current_code = s.current_code ∧
       (generate_node env fs s).1 = fs) ∧
    (∀ df : DataFrame, env.read_csv s.csv_path = Except.ok df →
       env.save_result s.target_bank (extract_code (call_llm env
         (generatePromptFormat s.analysis s.target_bank (pyListRepr df.columns)))) = some e →
       (generate_node env fs s).2.error_message = "Code generation failed: " ++ e ∧
       (generate_node env fs s).2.current_code =
         extract_code (call_llm env
           (generatePromptFormat s.analysis s.target_bank (pyListRepr df.columns))) ∧
       (generate_node env fs s).1 = fs) ∧
    (env.save_result s.target_bank (extract_code (call_llm env
        (selfCorrectPromptFormat s.error_message s.current_code))) = some e →
       (correct_node env fs s).2.error_message = "Correction failed: " ++ e ∧
       (correct_node env fs s).2.current_code =
         extract_code (call_llm env
           (selfCorrectPromptFormat s.error_message s.current_code)) ∧
       (correct_node env fs s).1 = fs) := by
  refine ⟨?_, ?_, ?_⟩
  · intro hcsv
    unfold generate_node
    simp [hcsv]
  · intro df hcsv hsave
    unfold generate_node
    simp [hcsv, hsave]
  · intro hsave
    unfold correct_node
    simp [hsave]

/-- Counterexample to C4 as stated: with a readable reference table and a
responsive model, a persistence failure in the generate step records a
descriptive error message, yet the current-code field does not keep the
value it had before the step began ("OLD") — it holds the freshly
extracted completion ("ok"). -/
theorem generation_failure_counterexample :
    (generate_node envSaveFail fsEx
        { sEx with current_code := "OLD" }).2.error_message =
      "Code generation failed: disk full" ∧
    (generate_node envSaveFail fsEx
        { sEx with current_code := "OLD" }).2.current_code = "ok" ∧
    ("ok" : String) ≠ "OLD" := by
  refine ⟨rfl, ?_, by decide⟩
  have h := (generation_failure_handling envSaveFail fsEx
      { sEx with current_code := "OLD" } "disk full").2.1 dfRef rfl rfl
  exact h.2.1.trans (by decide)

/-- Witness for C4's amended theorem: the reference-table branch at a
reading failure, instantiated concretely. -/
theorem generation_failure_handling_witness :
    (generate_node { envMatch with read_csv := fun _ => Except.error "bad csv" }
        fsEx sEx).2.error_message = "Code generation failed: bad csv" ∧
    (generate_node { envMatch with read_csv := fun _ => Except.error "bad csv" }
        fsEx sEx).2.current_code = sEx.current_code :=
  let h := (generation_failure_handling
    { envMatch with read_csv := fun _ => Except.error "bad csv" }
    fsEx sEx "bad csv").1 rfl
  ⟨h.1, h.2.1⟩

/-- C10: when the chat-completion call raises, `call_llm` degrades to the
empty string; the generate step then stores the empty string as the current
code and persists an empty parser file for the target (overwriting whatever
was there), and it records no error message. -/
theorem generate_llm_failure_empty (env : Env) (fs : FS) (s : AgentState)
    (df : DataFrame)
    (hcsv : env.read_csv s.csv_path = Except.ok df)
    (hllm : env.llm (generatePromptFormat s.analysis s.target_bank
      (pyListRepr df.columns)) = none)
    (hsave : env.save_result s.target_bank "" = none) :
    call_llm env (generatePromptFormat s.analysis s.target_bank
      (pyListRepr df.columns)) = "" ∧
    (generate_node env fs s).2.current_code = "" ∧
    (generate_node env fs s).1 s.target_bank = some "" ∧
    (generate_node env fs s).2.error_message = s.error_message := by
  have hc : call_llm env (generatePromptFormat s.analysis s.target_bank
      (pyListRepr df.columns)) = "" := by
    unfold call_llm
    rw [hllm]
  have he : extract_code "" = "" := rfl
  refine ⟨hc, ?_, ?_, ?_⟩ <;>
    · unfold generate_node
      simp only [hcsv]
      simp only [hc, he, hsave]
      try simp [fsWrite]

/-- Witness for C10 at the concrete model-outage environment. -/
theorem generate_llm_failure_empty_witness :
    (generate_node envLLMDown fsEx sEx).2.current_code = "" ∧
    (generate_node envLLMDown fsEx sEx).1 "icici" = some "" ∧
    (generate_node envLLMDown fsEx sEx).2.error_message = sEx.error_message :=
  let h := generate_llm_failure_empty envLLMDown fsEx sEx dfRef rfl rfl rfl
  ⟨h.2.1, h.2.2.1, h.2.2.2⟩

/-- C8: when the input document or the reference table file is missing for
the target, `run` returns false at once: no state-machine node executes (so
no generative call is made) for any fuel, any persisted-parser namespace
and any behaviour of the other oracles. -/
theorem run_missing_input (env : Env) (fuel : Nat) (fs : FS)
    (target_bank : String)
    (h : env.pathExists (pdfPathOf target_bank) = false ∨
         env.pathExists (csvPathOf target_bank) = false) :
    run env fuel fs target_bank = false ∧
    runTrace env fuel fs target_bank = [] := by
  unfold run runTrace
  rcases h with h | h
  · simp [h]
  · cases hp : env.pathExists (pdfPathOf target_bank) <;> simp [h, hp]

/-- Witness for C8: the environment with no files at all fails immediately
with an empty execution trace. -/
theorem run_missing_input_witness :
    run envNoFiles 30 fsEx "icici" = false ∧
    runTrace envNoFiles 30 fsEx "icici" = [] :=
  run_missing_input envNoFiles 30 fsEx "icici" (Or.inl rfl)

theorem driveTrace_done (env : Env) (fuel : Nat) (fs : FS) (s : AgentState) :
    driveTrace env fuel Node.done fs s = [] := by
  cases fuel <;> simp [driveTrace]

theorem testsBeforeReflect_from_reflect (env : Env) (fuel : Nat) (fs : FS)
    (s : AgentState) :
    testsBeforeReflect (driveTrace env fuel Node.reflect fs s) = 0 := by
  cases fuel <;> simp [driveTrace, testsBeforeReflect]

theorem route_after_plan_preTest (s : AgentState) :
    preTest (route_after_plan s) := by
  unfold preTest route_after_plan
  cases s.plan with
  | none => simp
  | some p =>
    dsimp only
    split_ifs <;> simp

/-- Core budget invariant: from a pre-test node with the success flag still
down, or from the test node itself, with budget 3 and at most 3 attempts
used, any trace that reaches the reflect node performs exactly
`4 - attempt` further test executions before it. -/
theorem budget_aux (env : Env) :
    ∀ (fuel : Nat) (n : Node) (fs : FS) (s : AgentState),
      s.max_attempts = 3 → s.attempt ≤ 3 →
      ((preTest n ∧ s.success = false) ∨ n = Node.test) →
      Node.reflect ∈ driveTrace env fuel n fs s →
      testsBeforeReflect (driveTrace env fuel n fs s) = 4 - s.attempt := by
  intro fuel
  induction fuel with
  | zero =>
    intro n fs s _ _ _ hmem
    simp [driveTrace] at hmem
  | succ f ih =>
    intro n fs s hmax hatt hpre hmem
    rcases hpre with ⟨hn, hsucc⟩ | hn
    · rcases hn with rfl | rfl | rfl | rfl
      · -- plan
        simp [driveTrace, stepGraph] at hmem ⊢
        have hres := ih (route_after_plan (plan_node s)) fs (plan_node s)
          (by simp [hmax]) (by simp [hatt])
          (Or.inl ⟨route_after_plan_preTest _, by simp [hsucc]⟩) hmem
        simp only [plan_node_attempt] at hres
        simp [testsBeforeReflect, hres]
      · -- analyze
        simp [driveTrace, stepGraph] at hmem ⊢
        have hres := ih Node.generate fs (analyze_node env s)
          (by simp [hmax]) (by simp [hatt])
          (Or.inl ⟨Or.inr (Or.inr (Or.inl rfl)), by simp [hsucc]⟩) hmem
        simp only [analyze_node_attempt] at hres
        simp [testsBeforeReflect, hres]
      · -- generate
        simp [driveTrace, stepGraph] at hmem ⊢
        have hres := ih Node.test (generate_node env fs s).1
          (generate_node env fs s).2
          (by simp [hmax]) (by simp [hatt]) (Or.inr rfl) hmem
        simp only [generate_node_attempt] at hres
        simp [testsBeforeReflect, hres]
      · -- correct
        simp [driveTrace, stepGraph] at hmem ⊢
        have hres := ih Node.test (correct_node env fs s).1
          (correct_node env fs s).2
          (by simp [hmax]) (by simp [hatt]) (Or.inr rfl) hmem
        simp only [correct_node_attempt] at hres
        simp [testsBeforeReflect, hres]
    · -- test
      subst hn
      simp [driveTrace, stepGraph] at hmem ⊢
      by_cases hs : (test_node env fs s).success = true
      · have hroute : shouldContinue (test_node env fs s) = Node.done := by
          unfold shouldContinue
          rw [if_pos hs]
        rw [hroute] at hmem
        rw [driveTrace_done] at hmem
        simp at hmem
      · have hsucc : (test_node env fs s).success = false :=
          Bool.not_eq_true _ |>.mp hs
        by_cases hgt : (test_node env fs s).max_attempts <
            (test_node env fs s).attempt
        · have hroute : shouldContinue (test_node env fs s) = Node.reflect := by
            unfold shouldContinue
            rw [if_neg (by simp [hsucc]), if_pos hgt]
          rw [hroute] at hmem ⊢
          have hattv : s.attempt = 3 := by
            have h1 : (test_node env fs s).attempt = s.attempt + 1 :=
              test_node_attempt env fs s
            have h2 : (test_node env fs s).max_attempts = s.max_attempts :=
              test_node_max env fs s
            rw [h1, h2, hmax] at hgt
            omega
          simp [testsBeforeReflect, testsBeforeReflect_from_reflect, hattv]
        · have hroute : shouldContinue (test_node env fs s) = Node.plan := by
            unfold shouldContinue
            rw [if_neg (by simp [hsucc]), if_neg hgt]
          rw [hroute] at hmem ⊢
          have hatt1 : (test_node env fs s).attempt ≤ 3 := by
            have h2 : (test_node env fs s).max_attempts = s.max_attempts :=
              test_node_max env fs s
            rw [h2, hmax] at hgt
            omega
          have hres := ih Node.plan fs (test_node env fs s)
            (by simp [hmax]) hatt1 (Or.inl ⟨Or.inl rfl, hsucc⟩) hmem
          simp only [test_node_attempt] at hres hatt1
          simp [testsBeforeReflect, hres]
          omega

/-- C2: with the attempt budget fixed at 3, the routing after every test
step goes to the terminal success exactly when the success flag is true,
otherwise to reflect exactly when the already-incremented attempt counter
exceeds 3, and otherwise back to plan — so a run that never succeeds
executes exactly 3 test cycles, and never a 4th, before the reflect step. -/
theorem test_routing_and_budget :
    (∀ s : AgentState, s.success = true → shouldContinue s = Node.done) ∧
    (∀ s : AgentState, s.success = false → s.max_attempts = 3 →
        (shouldContinue s = Node.reflect ↔ 3 < s.attempt)) ∧
    (∀ s : AgentState, s.success = false → s.max_attempts = 3 →
        s.attempt ≤ 3 → shouldContinue s = Node.plan) ∧
    (∀ (env : Env) (fuel : Nat) (fs : FS) (t p c : String),
        Node.reflect ∈ driveTrace env fuel Node.plan fs (initialState t p c) →
        testsBeforeReflect
          (driveTrace env fuel Node.plan fs (initialState t p c)) = 3) := by
  refine ⟨?_, ?_, ?_, ?_⟩
  · intro s h
    unfold shouldContinue
    rw [if_pos h]
  · intro s hsucc hmax
    unfold shouldContinue
    rw [if_neg (by simp [hsucc]), hmax]
    split_ifs with h
    · simp [h]
    · simp [h]
  · intro s hsucc hmax hle
    unfold shouldContinue
    rw [if_neg (by simp [hsucc]), hmax, if_neg (by omega)]
  · intro env fuel fs t p c hmem
    have h := budget_aux env fuel Node.plan fs (initialState t p c) rfl
      (by simp [initialState]) (Or.inl ⟨Or.inl rfl, rfl⟩) hmem
    simpa using h

/-- Witness for C2: a successful test routes to the terminal; and in an
environment whose generated parser always crashes, the driven run visits
reflect after exactly 3 test cycles. -/
theorem test_routing_and_budget_witness :
    shouldContinue { sEx with success := true } = Node.done ∧
    Node.reflect ∈ driveTrace envCrash 20 Node.plan fsEmpty
      (initialState "icici" "p.pdf" "r.csv") ∧
    testsBeforeReflect (driveTrace envCrash 20 Node.plan fsEmpty
      (initialState "icici" "p.pdf" "r.csv")) = 3 := by
  refine ⟨test_routing_and_budget.1 _ rfl, ?_, ?_⟩
  · decide
  · exact test_routing_and_budget.2.2.2 envCrash 20 fsEmpty "icici" "p.pdf"
      "r.csv" (by decide)

/-- Counterexample to C7 as stated: on a completion where the closing fence
overlaps the next tagged fence, the code returns the first tag-delimited
chunk (keeping a stray backtick), not the text strictly between the first
tagged opening fence and the next closing fence. -/
theorem extraction_counterexample :
    extract_code "```pythonX````pythonZ" = "X`" ∧
    specExtract "```pythonX````pythonZ" = "X" ∧
    extract_code "```pythonX````pythonZ" ≠
      specExtract "```pythonX````pythonZ" :=
  ⟨by decide, by decide, by decide⟩
